import Mathlib

/-
Verification development for the Raytracer host-side driver
(src/camera.rs, src/render.rs, src/main.rs).

Scalars: the Rust code computes with f32; here every f32 value is
modelled as a real number, so floating-point claims stated up to
tolerance become exact statements.  Machine integers (u32) are
modelled as naturals reduced mod 2^32 at the one place overflow can
occur (the frame counter increment).

The crate also has a module `math` providing Vec3 (referenced by
camera.rs as `crate::math::Vec3`) whose source file is not part of the
sources available here; its operations are modelled from the spec.
-/

namespace Raytracer

/-- Modelled from the spec: `Vec3` (src/math.rs is not among the available
sources) — three single-precision components, immutable value semantics. -/
@[ext]
structure Vec3 where
  x : ℝ
  y : ℝ
  z : ℝ

namespace Vec3

/-- Modelled from the spec: componentwise addition. -/
def add (a b : Vec3) : Vec3 := ⟨a.x + b.x, a.y + b.y, a.z + b.z⟩

instance : Add Vec3 := ⟨add⟩

/-- Modelled from the spec: componentwise subtraction. -/
def sub (a b : Vec3) : Vec3 := ⟨a.x - b.x, a.y - b.y, a.z - b.z⟩

instance : Sub Vec3 := ⟨sub⟩

/-- Modelled from the spec: unary negation. -/
def neg (a : Vec3) : Vec3 := ⟨-a.x, -a.y, -a.z⟩

instance : Neg Vec3 := ⟨neg⟩

/-- Modelled from the spec: scalar multiplication `v * s`. -/
def smul (a : Vec3) (s : ℝ) : Vec3 := ⟨a.x * s, a.y * s, a.z * s⟩

instance : HMul Vec3 ℝ Vec3 := ⟨smul⟩

/-- Modelled from the spec: Euclidean dot product. -/
def dot (a b : Vec3) : ℝ := a.x * b.x + a.y * b.y + a.z * b.z

/-- Modelled from the spec: right-handed cross product `a × b`. -/
def cross (a b : Vec3) : Vec3 :=
  ⟨a.y * b.z - a.z * b.y, a.z * b.x - a.x * b.z, a.x * b.y - a.y * b.x⟩

/-- Modelled from the spec: Euclidean length. -/
noncomputable def length (v : Vec3) : ℝ := Real.sqrt (v.dot v)

/-- Modelled from the spec: `normalize(v) = v / |v|` (undefined — here the
junk value obtained from division by zero — on the zero vector). -/
noncomputable def normalized (v : Vec3) : Vec3 :=
  ⟨v.x / v.length, v.y / v.length, v.z / v.length⟩

/-- The all-zero vector (the `Zeroable` value of a `[f32; 3]` slot). -/
def zero : Vec3 := ⟨0, 0, 0⟩

end Vec3

/-- `CameraUniforms` from src/camera.rs: `repr(C)` snapshot with one f32 of
explicit padding after each 3-component vector. -/
structure CameraUniforms where
  origin : Vec3
  pad1 : ℝ
  u : Vec3
  pad2 : ℝ
  v : Vec3
  pad3 : ℝ
  w : Vec3
  pad4 : ℝ

/-- `CameraUniforms::zeroed()` (bytemuck `Zeroable`): every field zero. -/
def CameraUniforms.zeroed : CameraUniforms :=
  ⟨Vec3.zero, 0, Vec3.zero, 0, Vec3.zero, 0, Vec3.zero, 0⟩

/-- `Camera` from src/camera.rs. -/
structure Camera where
  lookfrom : Vec3
  lookat : Vec3
  vup : Vec3
  vfov : ℝ

/-- `f32::to_radians`: degrees to radians. -/
noncomputable def toRadians (x : ℝ) : ℝ := x * Real.pi / 180

namespace Camera

/-- `Camera::new` from src/camera.rs: stores the four arguments unchanged,
with no validation. -/
def new (lookfrom lookat vup : Vec3) (vfov : ℝ) : Camera :=
  { lookfrom := lookfrom, lookat := lookat, vup := vup, vfov := vfov }

/-- `Camera::get_uniforms` from src/camera.rs. -/
noncomputable def get_uniforms (c : Camera) : CameraUniforms :=
  let theta := toRadians c.vfov
  let h := Real.tan (theta / 2)
  let w := (c.lookfrom - c.lookat).normalized
  let u := (c.vup.cross w).normalized
  let v := w.cross u
  let u_scaled := u * h
  let v_scaled := v * h
  let w_forward := -w
  { origin := c.lookfrom, pad1 := 0
    u := u_scaled, pad2 := 0
    v := v_scaled, pad3 := 0
    w := w_forward, pad4 := 0 }

/-- `Camera::zoom` from src/camera.rs: subtract `delta * 10` from `vfov`,
then clamp below at 1 and above at 179 by two sequential conditionals. -/
noncomputable def zoom (c : Camera) (delta : ℝ) : Camera :=
  let vfov1 := c.vfov - delta * 10
  let vfov2 := if vfov1 < 1 then 1 else vfov1
  let vfov3 := if vfov2 > 179 then 179 else vfov2
  { c with vfov := vfov3 }

/-- `Camera::move_along_w` from src/camera.rs: translate both endpoints
along the normalized view direction. -/
noncomputable def move_along_w (c : Camera) (delta : ℝ) : Camera :=
  let w := (c.lookat - c.lookfrom).normalized
  let move_vec := w * delta * (5 : ℝ)
  { c with lookfrom := c.lookfrom + move_vec, lookat := c.lookat + move_vec }

/-- `Camera::move_along_u` from src/camera.rs: translate both endpoints
along the normalized right axis. -/
noncomputable def move_along_u (c : Camera) (delta : ℝ) : Camera :=
  let w := (c.lookfrom - c.lookat).normalized
  let u := (c.vup.cross w).normalized
  let move_vec := u * delta * (5 : ℝ)
  { c with lookfrom := c.lookfrom + move_vec, lookat := c.lookat + move_vec }

/-- `Camera::rotate` from src/camera.rs: yaw the x/z components of
`forward = lookat - lookfrom` by `dx`, add `dy` to the (untouched) y
component, and rebase `lookat`.  The source also computes local `w` and
`u` values it never uses; they are reproduced here as dead lets. -/
noncomputable def rotate (c : Camera) (dx dy : ℝ) : Camera :=
  let forward := c.lookat - c.lookfrom
  let cos_yaw := Real.cos dx
  let sin_yaw := Real.sin dx
  let new_x := forward.x * cos_yaw - forward.z * sin_yaw
  let new_z := forward.x * sin_yaw + forward.z * cos_yaw
  let forward1 : Vec3 := ⟨new_x, forward.y, new_z⟩
  let w := -forward1.normalized
  let u := c.vup.cross w
  let new_y := forward1.y + dy
  let forward2 : Vec3 := ⟨forward1.x, new_y, forward1.z⟩
  { c with lookat := c.lookfrom + forward2 }

end Camera

/-- `Uniforms` from src/render.rs: the full per-frame `repr(C)` payload.
The three u32 fields are modelled as naturals; only `frame_count` is ever
incremented, and its increment is reduced mod 2^32. -/
structure Uniforms where
  width : ℕ
  height : ℕ
  frame_count : ℕ
  pad : ℕ
  camera : CameraUniforms

/-- The state of `PathTracer` from src/render.rs that the claims are
about: the host-side `uniforms` field.  The GPU handles (device, queue,
buffers, pipeline) carry no verifiable data and are omitted. -/
structure PathTracer where
  uniforms : Uniforms

namespace PathTracer

/-- `PathTracer::new` from src/render.rs: uniforms start with a zeroed
camera block, the given dimensions, `frame_count = 0` and zero padding. -/
def new (width height : ℕ) : PathTracer :=
  { uniforms :=
      { camera := CameraUniforms.zeroed, width := width, height := height
        frame_count := 0, pad := 0 } }

/-- `PathTracer::reset_samples` from src/render.rs. -/
def reset_samples (p : PathTracer) : PathTracer :=
  { p with uniforms := { p.uniforms with frame_count := 0 } }

/-- `PathTracer::render_frame` from src/render.rs, restricted to its
host-visible effect: increment `frame_count` (a u32, hence mod 2^32),
capture the camera uniforms, and write the whole `Uniforms` value to the
uniform buffer.  Returns the new state together with the written value. -/
noncomputable def render_frame (p : PathTracer) (camera : Camera) :
    PathTracer × Uniforms :=
  let u1 := { p.uniforms with frame_count := (p.uniforms.frame_count + 1) % 2 ^ 32 }
  let u2 := { u1 with camera := camera.get_uniforms }
  ({ p with uniforms := u2 }, u2)

end PathTracer

/-- The camera-mutating input events dispatched in src/main.rs.  The two
mouse-wheel constructors carry the raw winit delta from which the zoom
delta is computed; mouse motion carries the raw (dx, dy). -/
inductive InputEvent where
  | keyZ
  | keyX
  | keyW
  | keyS
  | keyA
  | keyD
  | wheelPixel (y : ℝ)
  | wheelLine (y : ℝ)
  | mouseMotion (dx dy : ℝ)

/-- The event-handler arms of src/main.rs that mutate the camera: each
applies its camera operation and then calls `reset_samples`.
(`RedrawRequested` and `CloseRequested` do not mutate the camera and are
not represented here.) -/
noncomputable def handleEvent (camera : Camera) (p : PathTracer) :
    InputEvent → Camera × PathTracer
  | .keyZ => (camera.zoom 0.1, p.reset_samples)
  | .keyX => (camera.zoom (-0.1), p.reset_samples)
  | .keyW => (camera.move_along_w 0.1, p.reset_samples)
  | .keyS => (camera.move_along_w (-0.1), p.reset_samples)
  | .keyA => (camera.move_along_u 0.1, p.reset_samples)
  | .keyD => (camera.move_along_u (-0.1), p.reset_samples)
  | .wheelPixel y => (camera.zoom (0.001 * y), p.reset_samples)
  | .wheelLine y => (camera.zoom (y * 0.001), p.reset_samples)
  | .mouseMotion dx dy => (camera.rotate (dx * 0.003) (dy * 0.003), p.reset_samples)

/-- `n` consecutive `render_frame` calls (the `RedrawRequested` arm of
src/main.rs) with a fixed camera, keeping the resulting state. -/
noncomputable def runFrames (p : PathTracer) (c : Camera) (n : ℕ) : PathTracer :=
  (fun q => (q.render_frame c).1)^[n] p

/-- The `Uniforms` value `render_frame` writes to the uniform buffer. -/
noncomputable def written (p : PathTracer) (c : Camera) : Uniforms :=
  (p.render_frame c).2

/-- Little-endian byte image of a `u32`. -/
def encodeU32 (n : ℕ) : List ℕ :=
  [n % 256, n / 256 % 256, n / 256 ^ 2 % 256, n / 256 ^ 3 % 256]

/-- Byte image of a `[f32; 3]` field given an IEEE-754 binary32 encoder
`enc` for the individual scalars. -/
def encodeVec3 (enc : ℝ → List ℕ) (v : Vec3) : List ℕ :=
  enc v.x ++ enc v.y ++ enc v.z

/-- Byte image of the `repr(C)` struct `CameraUniforms` (src/camera.rs):
its eight fields laid out in declaration order with no implicit padding,
since every field is 4-byte aligned.  Parametrised by the binary32
encoder `enc`. -/
def CameraUniforms.bytes (enc : ℝ → List ℕ) (cu : CameraUniforms) : List ℕ :=
  encodeVec3 enc cu.origin ++ enc cu.pad1 ++
  encodeVec3 enc cu.u ++ enc cu.pad2 ++
  encodeVec3 enc cu.v ++ enc cu.pad3 ++
  encodeVec3 enc cu.w ++ enc cu.pad4

/-- Byte image of the `repr(C)` struct `Uniforms` (src/render.rs) as
produced by `bytemuck::bytes_of` in `render_frame`: the four u32 fields
little-endian in declaration order, then the embedded camera block; all
fields are 4-byte aligned, so there is no implicit padding. -/
def Uniforms.bytes (enc : ℝ → List ℕ) (u : Uniforms) : List ℕ :=
  encodeU32 u.width ++ encodeU32 u.height ++ encodeU32 u.frame_count ++
  encodeU32 u.pad ++ u.camera.bytes enc

/-- `n` repetitions of the Z-key handler's `zoom(0.1)` (src/main.rs). -/
noncomputable def zoomIter (c : Camera) (n : ℕ) : Camera :=
  (fun cam => cam.zoom 0.1)^[n] c

/-- A concrete non-degenerate camera used to witness hypotheses: eye on
the z axis looking at the origin, world up, 90 degree field of view. -/
def testCam : Camera := Camera.new ⟨0, 0, 1⟩ ⟨0, 0, 0⟩ ⟨0, 1, 0⟩ 90

/-! Component projection lemmas for the Vec3 operations. -/

namespace Vec3

@[simp] lemma add_x (a b : Vec3) : (a + b).x = a.x + b.x := rfl

@[simp] lemma add_y (a b : Vec3) : (a + b).y = a.y + b.y := rfl

@[simp] lemma add_z (a b : Vec3) : (a + b).z = a.z + b.z := rfl

@[simp] lemma sub_x (a b : Vec3) : (a - b).x = a.x - b.x := rfl

@[simp] lemma sub_y (a b : Vec3) : (a - b).y = a.y - b.y := rfl

@[simp] lemma sub_z (a b : Vec3) : (a - b).z = a.z - b.z := rfl

@[simp] lemma neg_x (a : Vec3) : (-a).x = -a.x := rfl

@[simp] lemma neg_y (a : Vec3) : (-a).y = -a.y := rfl

@[simp] lemma neg_z (a : Vec3) : (-a).z = -a.z := rfl

@[simp] lemma smul_x (a : Vec3) (s : ℝ) : (a * s).x = a.x * s := rfl

@[simp] lemma smul_y (a : Vec3) (s : ℝ) : (a * s).y = a.y * s := rfl

@[simp] lemma smul_z (a : Vec3) (s : ℝ) : (a * s).z = a.z * s := rfl

@[simp] lemma normalized_x (v : Vec3) : v.normalized.x = v.x / v.length := rfl

@[simp] lemma normalized_y (v : Vec3) : v.normalized.y = v.y / v.length := rfl

@[simp] lemma normalized_z (v : Vec3) : v.normalized.z = v.z / v.length := rfl

@[simp] lemma zero_x : (Vec3.zero).x = 0 := rfl

@[simp] lemma zero_y : (Vec3.zero).y = 0 := rfl

@[simp] lemma zero_z : (Vec3.zero).z = 0 := rfl

lemma sub_eq_zero_iff {a b : Vec3} : a - b = Vec3.zero ↔ a = b := by
  constructor
  · intro h
    have hx := congrArg Vec3.x h
    have hy := congrArg Vec3.y h
    have hz := congrArg Vec3.z h
    simp only [sub_x, sub_y, sub_z, zero_x, zero_y, zero_z] at hx hy hz
    ext
    · linarith
    · linarith
    · linarith
  · intro h
    subst h
    ext <;> simp

lemma sub_ne_zero_of_ne {a b : Vec3} (h : a ≠ b) : a - b ≠ Vec3.zero :=
  fun hz => h (sub_eq_zero_iff.mp hz)

lemma dot_self_nonneg (v : Vec3) : 0 ≤ v.dot v := by
  simp only [Vec3.dot]
  nlinarith [mul_self_nonneg v.x, mul_self_nonneg v.y, mul_self_nonneg v.z]

lemma dot_self_pos {v : Vec3} (h : v ≠ Vec3.zero) : 0 < v.dot v := by
  rcases (dot_self_nonneg v).lt_or_eq with hlt | heq
  · exact hlt
  · exfalso
    apply h
    have h2 : v.x * v.x + v.y * v.y + v.z * v.z = 0 := by
      simpa [Vec3.dot] using heq.symm
    have hx : v.x * v.x = 0 := by
      nlinarith [mul_self_nonneg v.x, mul_self_nonneg v.y, mul_self_nonneg v.z]
    have hy : v.y * v.y = 0 := by
      nlinarith [mul_self_nonneg v.x, mul_self_nonneg v.y, mul_self_nonneg v.z]
    have hz : v.z * v.z = 0 := by
      nlinarith [mul_self_nonneg v.x, mul_self_nonneg v.y, mul_self_nonneg v.z]
    ext
    · simpa using mul_self_eq_zero.mp hx
    · simpa using mul_self_eq_zero.mp hy
    · simpa using mul_self_eq_zero.mp hz

lemma length_pos {v : Vec3} (h : v ≠ Vec3.zero) : 0 < v.length :=
  Real.sqrt_pos.mpr (dot_self_pos h)

lemma mul_self_length (v : Vec3) : v.length * v.length = v.dot v :=
  Real.mul_self_sqrt (dot_self_nonneg v)

lemma dot_self_normalized {v : Vec3} (h : v ≠ Vec3.zero) :
    v.normalized.dot v.normalized = 1 := by
  have hL : v.length ≠ 0 := ne_of_gt (length_pos h)
  have hd : v.dot v ≠ 0 := ne_of_gt (dot_self_pos h)
  simp only [Vec3.dot, normalized_x, normalized_y, normalized_z]
  rw [div_mul_div_comm, div_mul_div_comm, div_mul_div_comm,
    div_add_div_same, div_add_div_same, mul_self_length]
  exact div_self (by simpa [Vec3.dot] using hd)

lemma length_normalized {v : Vec3} (h : v ≠ Vec3.zero) :
    v.normalized.length = 1 := by
  rw [Vec3.length, dot_self_normalized h, Real.sqrt_one]

lemma dot_normalized_left (v w : Vec3) :
    v.normalized.dot w = v.dot w / v.length := by
  simp only [Vec3.dot, normalized_x, normalized_y, normalized_z]
  ring

lemma dot_comm (a b : Vec3) : a.dot b = b.dot a := by
  simp only [Vec3.dot]
  ring

lemma cross_dot_fst (a b : Vec3) : (a.cross b).dot a = 0 := by
  simp only [Vec3.dot, Vec3.cross]
  ring

lemma cross_dot_snd (a b : Vec3) : (a.cross b).dot b = 0 := by
  simp only [Vec3.dot, Vec3.cross]
  ring

lemma dot_cross_same_left (a b : Vec3) : a.dot (a.cross b) = 0 := by
  simp only [Vec3.dot, Vec3.cross]
  ring

lemma dot_cross_same_right (a b : Vec3) : b.dot (a.cross b) = 0 := by
  simp only [Vec3.dot, Vec3.cross]
  ring

lemma cross_dot_left (a b c : Vec3) : (a.cross b).dot c = a.dot (b.cross c) := by
  simp only [Vec3.dot, Vec3.cross]
  ring

lemma dot_cross_self (a b : Vec3) :
    (a.cross b).dot (a.cross b) = a.dot a * b.dot b - a.dot b * a.dot b := by
  simp only [Vec3.dot, Vec3.cross]
  ring

end Vec3

/-! Lemmas about the clamped zoom update. -/

lemma Camera.zoom_vfov (c : Camera) (d : ℝ) :
    (c.zoom d).vfov = min 179 (max 1 (c.vfov - d * 10)) := by
  simp only [Camera.zoom]
  rcases le_total (c.vfov - d * 10) 1 with h | h
  · rcases lt_or_le (c.vfov - d * 10) 1 with h1 | h1
    · rw [if_pos h1, if_neg (by norm_num), max_eq_left h, min_eq_right (by norm_num)]
    · have he : c.vfov - d * 10 = 1 := le_antisymm h h1
      rw [if_neg (by rw [he]; norm_num), he, if_neg (by norm_num)]
      norm_num
  · have hin : ¬ (c.vfov - d * 10 < 1) := not_lt.mpr h
    rw [if_neg hin, max_eq_right h]
    rcases lt_or_le (179 : ℝ) (c.vfov - d * 10) with h2 | h2
    · rw [if_pos h2, min_eq_left (by linarith)]
    · rw [if_neg (not_lt.mpr h2), min_eq_right h2]

lemma Camera.zoom_vfov_mem (c : Camera) (d : ℝ) :
    1 ≤ (c.zoom d).vfov ∧ (c.zoom d).vfov ≤ 179 := by
  rw [Camera.zoom_vfov]
  constructor
  · exact le_min (by norm_num) (le_max_left 1 _)
  · exact min_le_left 179 _

lemma clamp_step (a : ℝ) (ha : a ≤ 20) :
    min 179 (max 1 (max 1 a - 1)) = max 1 (a - 1) := by
  rcases le_total a 1 with h | h
  · rw [max_eq_left h, max_eq_left (by linarith : a - 1 ≤ 1)]
    norm_num
  · rw [max_eq_right h, min_eq_right (max_le (by norm_num) (by linarith))]

lemma zoomIter_vfov (c : Camera) (h : c.vfov = 20) (n : ℕ) :
    (zoomIter c n).vfov = max 1 ((20 : ℝ) - n) := by
  induction n with
  | zero =>
      simp only [zoomIter, Function.iterate_zero, id_eq, h, Nat.cast_zero]
      norm_num
  | succ k ih =>
      have hstep : zoomIter c (k + 1) = (zoomIter c k).zoom 0.1 := by
        simp only [zoomIter, Function.iterate_succ_apply']
      rw [hstep, Camera.zoom_vfov, ih]
      have h10 : (0.1 : ℝ) * 10 = 1 := by norm_num
      rw [h10]
      have hk : ((20 : ℝ) - k) ≤ 20 := by
        have : (0 : ℝ) ≤ k := Nat.cast_nonneg k
        linarith
      rw [clamp_step _ hk]
      congr 1
      push_cast
      ring

/-! Concrete facts about the witness camera. -/

lemma testCam_ne : testCam.lookfrom ≠ testCam.lookat := by
  intro h
  have hz := congrArg Vec3.z h
  norm_num [testCam, Camera.new] at hz

lemma testCam_sub : testCam.lookfrom - testCam.lookat = ⟨0, 0, 1⟩ := by
  ext <;> norm_num [testCam, Camera.new]

lemma testCam_w : (testCam.lookfrom - testCam.lookat).normalized = ⟨0, 0, 1⟩ := by
  rw [testCam_sub]
  have hl : (Vec3.length ⟨0, 0, 1⟩) = 1 := by
    simp [Vec3.length, Vec3.dot]
  ext <;> simp [hl]

lemma testCam_cross_ne :
    testCam.vup.cross ((testCam.lookfrom - testCam.lookat).normalized) ≠ Vec3.zero := by
  rw [testCam_w]
  intro h
  have hx := congrArg Vec3.x h
  norm_num [testCam, Camera.new, Vec3.cross] at hx

lemma Vec3.add_sub_add_cancel (a b m : Vec3) : (a + m) - (b + m) = a - b := by
  ext <;> simp

/-- C2: `zoom(delta)` sets `vfov` to `(vfov - delta * 10)` clamped into
[1, 179]; the result is always in [1, 179]; `zoom(0.1)` on `vfov = 20`
gives 19; 200 repetitions of `zoom(0.1)` from `vfov = 20` saturate at 1
and the value never drops below 1. -/
theorem claim_C2 (c : Camera) (d : ℝ) (h1 : 1 ≤ c.vfov) (h2 : c.vfov ≤ 179) :
    (c.zoom d).vfov = min 179 (max 1 (c.vfov - d * 10)) ∧
    1 ≤ (c.zoom d).vfov ∧ (c.zoom d).vfov ≤ 179 ∧
    (c.vfov = 20 → (c.zoom 0.1).vfov = 19) ∧
    (c.vfov = 20 → (zoomIter c 200).vfov = 1 ∧ ∀ n : ℕ, 1 ≤ (zoomIter c n).vfov) := by
  refine ⟨Camera.zoom_vfov c d, (Camera.zoom_vfov_mem c d).1, (Camera.zoom_vfov_mem c d).2,
    ?_, ?_⟩
  · intro h20
    rw [Camera.zoom_vfov, h20]
    norm_num
  · intro h20
    constructor
    · rw [zoomIter_vfov c h20 200]
      norm_num
    · intro n
      rw [zoomIter_vfov c h20 n]
      exact le_max_left 1 _

/-- Witness for C2 at a concrete camera with `vfov = 20`. -/
theorem claim_C2_witness :
    (1 ≤ (Camera.new ⟨0, 0, 1⟩ ⟨0, 0, 0⟩ ⟨0, 1, 0⟩ 20).vfov ∧
      (Camera.new ⟨0, 0, 1⟩ ⟨0, 0, 0⟩ ⟨0, 1, 0⟩ 20).vfov ≤ 179) ∧
    ((Camera.new ⟨0, 0, 1⟩ ⟨0, 0, 0⟩ ⟨0, 1, 0⟩ 20).zoom 0.1).vfov =
      min 179 (max 1 ((Camera.new ⟨0, 0, 1⟩ ⟨0, 0, 0⟩ ⟨0, 1, 0⟩ 20).vfov - 0.1 * 10)) ∧
    1 ≤ ((Camera.new ⟨0, 0, 1⟩ ⟨0, 0, 0⟩ ⟨0, 1, 0⟩ 20).zoom 0.1).vfov ∧
    ((Camera.new ⟨0, 0, 1⟩ ⟨0, 0, 0⟩ ⟨0, 1, 0⟩ 20).zoom 0.1).vfov ≤ 179 ∧
    ((Camera.new ⟨0, 0, 1⟩ ⟨0, 0, 0⟩ ⟨0, 1, 0⟩ 20).vfov = 20 →
      ((Camera.new ⟨0, 0, 1⟩ ⟨0, 0, 0⟩ ⟨0, 1, 0⟩ 20).zoom 0.1).vfov = 19) ∧
    ((Camera.new ⟨0, 0, 1⟩ ⟨0, 0, 0⟩ ⟨0, 1, 0⟩ 20).vfov = 20 →
      (zoomIter (Camera.new ⟨0, 0, 1⟩ ⟨0, 0, 0⟩ ⟨0, 1, 0⟩ 20) 200).vfov = 1 ∧
      ∀ n : ℕ, 1 ≤ (zoomIter (Camera.new ⟨0, 0, 1⟩ ⟨0, 0, 0⟩ ⟨0, 1, 0⟩ 20) n).vfov) :=
  ⟨⟨by norm_num [Camera.new], by norm_num [Camera.new]⟩,
    claim_C2 (Camera.new ⟨0, 0, 1⟩ ⟨0, 0, 0⟩ ⟨0, 1, 0⟩ 20) 0.1
      (by norm_num [Camera.new]) (by norm_num [Camera.new])⟩

/-- C4: `rotate(dx, dy)` replaces the x/z components of
`forward = target - eye` by the standard yaw rotation, adds `dy` to the
unrotated vertical component, sets `target = eye + forward`, and leaves
`eye` unchanged. -/
theorem claim_C4 (c : Camera) (dx dy : ℝ) :
    (c.rotate dx dy).lookat =
      c.lookfrom +
        (⟨(c.lookat - c.lookfrom).x * Real.cos dx - (c.lookat - c.lookfrom).z * Real.sin dx,
          (c.lookat - c.lookfrom).y + dy,
          (c.lookat - c.lookfrom).x * Real.sin dx + (c.lookat - c.lookfrom).z * Real.cos dx⟩ :
          Vec3) ∧
    (c.rotate dx dy).lookfrom = c.lookfrom :=
  ⟨rfl, rfl⟩

/-- C7: `move_along_w(delta)` translates both endpoints by
`normalize(lookat - lookfrom) * delta * 5`, `move_along_u(delta)` by
`normalize(vup × normalize(lookfrom - lookat)) * delta * 5`, and neither
changes the look direction `lookat - lookfrom`. -/
theorem claim_C7 (c : Camera) (d : ℝ) (h : c.lookfrom ≠ c.lookat) :
    (c.move_along_w d).lookfrom =
      c.lookfrom + (c.lookat - c.lookfrom).normalized * d * (5 : ℝ) ∧
    (c.move_along_w d).lookat =
      c.lookat + (c.lookat - c.lookfrom).normalized * d * (5 : ℝ) ∧
    (c.move_along_u d).lookfrom =
      c.lookfrom +
        (c.vup.cross ((c.lookfrom - c.lookat).normalized)).normalized * d * (5 : ℝ) ∧
    (c.move_along_u d).lookat =
      c.lookat +
        (c.vup.cross ((c.lookfrom - c.lookat).normalized)).normalized * d * (5 : ℝ) ∧
    (c.move_along_w d).lookat - (c.move_along_w d).lookfrom = c.lookat - c.lookfrom ∧
    (c.move_along_u d).lookat - (c.move_along_u d).lookfrom = c.lookat - c.lookfrom :=
  ⟨rfl, rfl, rfl, rfl, Vec3.add_sub_add_cancel _ _ _, Vec3.add_sub_add_cancel _ _ _⟩

/-- Witness for C7 at the concrete camera. -/
theorem claim_C7_witness :
    testCam.lookfrom ≠ testCam.lookat ∧
    ((testCam.move_along_w 2).lookfrom =
        testCam.lookfrom + (testCam.lookat - testCam.lookfrom).normalized * (2 : ℝ) * (5 : ℝ) ∧
      (testCam.move_along_w 2).lookat =
        testCam.lookat + (testCam.lookat - testCam.lookfrom).normalized * (2 : ℝ) * (5 : ℝ) ∧
      (testCam.move_along_u 2).lookfrom =
        testCam.lookfrom +
          (testCam.vup.cross ((testCam.lookfrom - testCam.lookat).normalized)).normalized *
            (2 : ℝ) * (5 : ℝ) ∧
      (testCam.move_along_u 2).lookat =
        testCam.lookat +
          (testCam.vup.cross ((testCam.lookfrom - testCam.lookat).normalized)).normalized *
            (2 : ℝ) * (5 : ℝ) ∧
      (testCam.move_along_w 2).lookat - (testCam.move_along_w 2).lookfrom =
        testCam.lookat - testCam.lookfrom ∧
      (testCam.move_along_u 2).lookat - (testCam.move_along_u 2).lookfrom =
        testCam.lookat - testCam.lookfrom) :=
  ⟨testCam_ne, claim_C7 testCam 2 testCam_ne⟩

/-- C8: `move_along_w(d)` followed by `move_along_w(-d)` restores both
`lookfrom` and `lookat` exactly (the real-number model of the
floating-point round trip). -/
theorem claim_C8 (c : Camera) (d : ℝ) (h : c.lookfrom ≠ c.lookat) :
    ((c.move_along_w d).move_along_w (-d)).lookfrom = c.lookfrom ∧
    ((c.move_along_w d).move_along_w (-d)).lookat = c.lookat := by
  have key : (c.move_along_w d).lookat - (c.move_along_w d).lookfrom =
      c.lookat - c.lookfrom := Vec3.add_sub_add_cancel _ _ _
  constructor
  · show (c.move_along_w d).lookfrom +
        ((c.move_along_w d).lookat - (c.move_along_w d).lookfrom).normalized * (-d) * (5 : ℝ) =
      c.lookfrom
    rw [key]
    show c.lookfrom + (c.lookat - c.lookfrom).normalized * d * (5 : ℝ) +
        (c.lookat - c.lookfrom).normalized * (-d) * (5 : ℝ) = c.lookfrom
    ext <;> simp
  · show (c.move_along_w d).lookat +
        ((c.move_along_w d).lookat - (c.move_along_w d).lookfrom).normalized * (-d) * (5 : ℝ) =
      c.lookat
    rw [key]
    show c.lookat + (c.lookat - c.lookfrom).normalized * d * (5 : ℝ) +
        (c.lookat - c.lookfrom).normalized * (-d) * (5 : ℝ) = c.lookat
    ext <;> simp

/-- Witness for C8 at the concrete camera. -/
theorem claim_C8_witness :
    testCam.lookfrom ≠ testCam.lookat ∧
    ((testCam.move_along_w 3).move_along_w (-3)).lookfrom = testCam.lookfrom ∧
    ((testCam.move_along_w 3).move_along_w (-3)).lookat = testCam.lookat :=
  ⟨testCam_ne, claim_C8 testCam 3 testCam_ne⟩

/-- C9: `zoom` mutates only `vfov`; `move_along_w` and `move_along_u`
leave `vup` and `vfov` unchanged; `rotate` mutates only `lookat`.  In
particular no camera operation touches `vup`.  (`get_uniforms` takes the
camera by shared reference and is embedded as the pure function
`Camera.get_uniforms`, so it mutates nothing by construction.) -/
theorem claim_C9 (c : Camera) (d dx dy : ℝ) :
    (c.zoom d).vup = c.vup ∧ (c.zoom d).lookfrom = c.lookfrom ∧
    (c.zoom d).lookat = c.lookat ∧
    (c.move_along_w d).vup = c.vup ∧ (c.move_along_w d).vfov = c.vfov ∧
    (c.move_along_u d).vup = c.vup ∧ (c.move_along_u d).vfov = c.vfov ∧
    (c.rotate dx dy).vup = c.vup ∧ (c.rotate dx dy).lookfrom = c.lookfrom ∧
    (c.rotate dx dy).vfov = c.vfov :=
  ⟨rfl, rfl, rfl, rfl, rfl, rfl, rfl, rfl, rfl, rfl⟩

/-- C10: `Camera::new` stores an out-of-range `vfov` (500) unchanged, and
the [1, 179] bound only appears after the first `zoom`, which clamps even
with `delta = 0`. -/
theorem claim_C10 (e t up : Vec3) :
    (Camera.new e t up 500).vfov = 500 ∧
    ¬ ((Camera.new e t up 500).vfov ≤ 179) ∧
    ((Camera.new e t up 500).zoom 0).vfov = 179 ∧
    (∀ c : Camera, 1 ≤ (c.zoom 0).vfov ∧ (c.zoom 0).vfov ≤ 179) := by
  refine ⟨rfl, by norm_num [Camera.new], ?_, fun c => Camera.zoom_vfov_mem c 0⟩
  rw [Camera.zoom_vfov]
  norm_num [Camera.new]

/-- C1: with a non-degenerate pose, `get_uniforms` returns the snapshot
with origin `eye`, `u = normalize(up × w_view) * h`,
`v = (w_view × u_basis) * h`, `w = -w_view`, where
`w_view = normalize(eye - target)` and `h = tan(to_radians(vfov) / 2)`. -/
theorem claim_C1 (c : Camera) (h1 : c.lookfrom ≠ c.lookat)
    (h2 : c.vup.cross ((c.lookfrom - c.lookat).normalized) ≠ Vec3.zero) :
    (c.get_uniforms).origin = c.lookfrom ∧
    (c.get_uniforms).u =
      (c.vup.cross ((c.lookfrom - c.lookat).normalized)).normalized *
        Real.tan (toRadians c.vfov / 2) ∧
    (c.get_uniforms).v =
      (((c.lookfrom - c.lookat).normalized).cross
          ((c.vup.cross ((c.lookfrom - c.lookat).normalized)).normalized)) *
        Real.tan (toRadians c.vfov / 2) ∧
    (c.get_uniforms).w = -((c.lookfrom - c.lookat).normalized) :=
  ⟨rfl, rfl, rfl, rfl⟩

/-- Witness for C1 at the concrete camera. -/
theorem claim_C1_witness :
    testCam.lookfrom ≠ testCam.lookat ∧
    testCam.vup.cross ((testCam.lookfrom - testCam.lookat).normalized) ≠ Vec3.zero ∧
    ((testCam.get_uniforms).origin = testCam.lookfrom ∧
      (testCam.get_uniforms).u =
        (testCam.vup.cross ((testCam.lookfrom - testCam.lookat).normalized)).normalized *
          Real.tan (toRadians testCam.vfov / 2) ∧
      (testCam.get_uniforms).v =
        (((testCam.lookfrom - testCam.lookat).normalized).cross
            ((testCam.vup.cross ((testCam.lookfrom - testCam.lookat).normalized)).normalized)) *
          Real.tan (toRadians testCam.vfov / 2) ∧
      (testCam.get_uniforms).w = -((testCam.lookfrom - testCam.lookat).normalized)) :=
  ⟨testCam_ne, testCam_cross_ne, claim_C1 testCam testCam_ne testCam_cross_ne⟩

/-- C6: with a non-degenerate pose, the derived basis vectors are pairwise
orthogonal, and `w_view` and `v_basis` have unit length (exactly, in the
real-number model). -/
theorem claim_C6 (c : Camera) (h1 : c.lookfrom ≠ c.lookat)
    (h2 : c.vup.cross ((c.lookfrom - c.lookat).normalized) ≠ Vec3.zero) :
    ((c.vup.cross ((c.lookfrom - c.lookat).normalized)).normalized).dot
      (((c.lookfrom - c.lookat).normalized).cross
        ((c.vup.cross ((c.lookfrom - c.lookat).normalized)).normalized)) = 0 ∧
    ((c.vup.cross ((c.lookfrom - c.lookat).normalized)).normalized).dot
      ((c.lookfrom - c.lookat).normalized) = 0 ∧
    (((c.lookfrom - c.lookat).normalized).cross
        ((c.vup.cross ((c.lookfrom - c.lookat).normalized)).normalized)).dot
      ((c.lookfrom - c.lookat).normalized) = 0 ∧
    ((c.lookfrom - c.lookat).normalized).length = 1 ∧
    (((c.lookfrom - c.lookat).normalized).cross
        ((c.vup.cross ((c.lookfrom - c.lookat).normalized)).normalized)).length = 1 := by
  have hsub : c.lookfrom - c.lookat ≠ Vec3.zero := Vec3.sub_ne_zero_of_ne h1
  have hww : ((c.lookfrom - c.lookat).normalized).dot ((c.lookfrom - c.lookat).normalized) = 1 :=
    Vec3.dot_self_normalized hsub
  have huu : ((c.vup.cross ((c.lookfrom - c.lookat).normalized)).normalized).dot
      ((c.vup.cross ((c.lookfrom - c.lookat).normalized)).normalized) = 1 :=
    Vec3.dot_self_normalized h2
  have huw : ((c.vup.cross ((c.lookfrom - c.lookat).normalized)).normalized).dot
      ((c.lookfrom - c.lookat).normalized) = 0 := by
    rw [Vec3.dot_normalized_left, Vec3.cross_dot_snd, zero_div]
  refine ⟨Vec3.dot_cross_same_right _ _, huw, Vec3.cross_dot_fst _ _,
    Vec3.length_normalized hsub, ?_⟩
  have hvv : (((c.lookfrom - c.lookat).normalized).cross
      ((c.vup.cross ((c.lookfrom - c.lookat).normalized)).normalized)).dot
      (((c.lookfrom - c.lookat).normalized).cross
        ((c.vup.cross ((c.lookfrom - c.lookat).normalized)).normalized)) = 1 := by
    rw [Vec3.dot_cross_self, hww, huu, Vec3.dot_comm, huw]
    norm_num
  rw [Vec3.length, hvv, Real.sqrt_one]

/-- Witness for C6 at the concrete camera. -/
theorem claim_C6_witness :
    testCam.lookfrom ≠ testCam.lookat ∧
    testCam.vup.cross ((testCam.lookfrom - testCam.lookat).normalized) ≠ Vec3.zero ∧
    (((testCam.vup.cross ((testCam.lookfrom - testCam.lookat).normalized)).normalized).dot
        (((testCam.lookfrom - testCam.lookat).normalized).cross
          ((testCam.vup.cross ((testCam.lookfrom - testCam.lookat).normalized)).normalized)) =
        0 ∧
      ((testCam.vup.cross ((testCam.lookfrom - testCam.lookat).normalized)).normalized).dot
        ((testCam.lookfrom - testCam.lookat).normalized) = 0 ∧
      (((testCam.lookfrom - testCam.lookat).normalized).cross
          ((testCam.vup.cross ((testCam.lookfrom - testCam.lookat).normalized)).normalized)).dot
        ((testCam.lookfrom - testCam.lookat).normalized) = 0 ∧
      ((testCam.lookfrom - testCam.lookat).normalized).length = 1 ∧
      (((testCam.lookfrom - testCam.lookat).normalized).cross
          ((testCam.vup.cross
            ((testCam.lookfrom - testCam.lookat).normalized)).normalized)).length = 1) :=
  ⟨testCam_ne, testCam_cross_ne, claim_C6 testCam testCam_ne testCam_cross_ne⟩

/-! Frame counter lemmas. -/

lemma PathTracer.render_frame_count (p : PathTracer) (c : Camera) :
    (p.render_frame c).2.frame_count = (p.uniforms.frame_count + 1) % 2 ^ 32 := rfl

lemma runFrames_succ (p : PathTracer) (c : Camera) (n : ℕ) :
    runFrames p c (n + 1) = ((runFrames p c n).render_frame c).1 := by
  simp only [runFrames, Function.iterate_succ_apply']

lemma runFrames_frame_count (p : PathTracer) (c : Camera)
    (hp : p.uniforms.frame_count < 2 ^ 32) (n : ℕ) :
    (runFrames p c n).uniforms.frame_count = (p.uniforms.frame_count + n) % 2 ^ 32 := by
  induction n with
  | zero =>
      simp only [runFrames, Function.iterate_zero, id_eq, Nat.add_zero]
      exact (Nat.mod_eq_of_lt hp).symm
  | succ k ih =>
      rw [runFrames_succ]
      show ((runFrames p c k).uniforms.frame_count + 1) % 2 ^ 32 = _
      rw [ih, Nat.mod_add_mod, Nat.add_assoc]

/-- C3 (amended for u32 wraparound): `reset_samples` zeroes the counter;
`render_frame` captures the incremented counter in the written uniforms
(mod 2^32), so the first frame after a reset writes 1, and `N < 2^32`
consecutive frames after a reset leave the counter at exactly `N`; every
camera-mutating event handler resets the counter to 0. -/
theorem claim_C3 (p q : PathTracer) (c cam : Camera) (e : InputEvent)
    (N : ℕ) (hN : N < 2 ^ 32) :
    (p.reset_samples).uniforms.frame_count = 0 ∧
    (q.render_frame c).2 = (q.render_frame c).1.uniforms ∧
    (q.render_frame c).2.frame_count = (q.uniforms.frame_count + 1) % 2 ^ 32 ∧
    ((p.reset_samples).render_frame c).2.frame_count = 1 ∧
    (runFrames p.reset_samples c N).uniforms.frame_count = N ∧
    (handleEvent cam q e).2.uniforms.frame_count = 0 := by
  refine ⟨rfl, rfl, rfl, ?_, ?_, ?_⟩
  · show (0 + 1) % 2 ^ 32 = 1
    norm_num
  · have h0 : p.reset_samples.uniforms.frame_count < 2 ^ 32 := by
      show (0 : ℕ) < 2 ^ 32
      norm_num
    rw [runFrames_frame_count p.reset_samples c h0 N]
    show (0 + N) % 2 ^ 32 = N
    rw [Nat.zero_add]
    exact Nat.mod_eq_of_lt hN
  · cases e <;> rfl

/-- Witness for C3 at concrete inputs. -/
theorem claim_C3_witness :
    (5 : ℕ) < 2 ^ 32 ∧
    (((PathTracer.new 1920 1080).reset_samples).uniforms.frame_count = 0 ∧
      ((PathTracer.new 1920 1080).render_frame testCam).2 =
        ((PathTracer.new 1920 1080).render_frame testCam).1.uniforms ∧
      ((PathTracer.new 1920 1080).render_frame testCam).2.frame_count =
        ((PathTracer.new 1920 1080).uniforms.frame_count + 1) % 2 ^ 32 ∧
      (((PathTracer.new 1920 1080).reset_samples).render_frame testCam).2.frame_count = 1 ∧
      (runFrames (PathTracer.new 1920 1080).reset_samples testCam 5).uniforms.frame_count = 5 ∧
      (handleEvent testCam (PathTracer.new 1920 1080) InputEvent.keyZ).2.uniforms.frame_count =
        0) :=
  ⟨by norm_num,
    claim_C3 (PathTracer.new 1920 1080) (PathTracer.new 1920 1080) testCam testCam
      InputEvent.keyZ 5 (by norm_num)⟩

/-- Counterexample to C3 as stated: after 2^32 consecutive `render_frame`
calls with no reset, the written `frame_count` is 0 (u32 wraparound), not
2^32. -/
theorem claim_C3_cex :
    ((runFrames ((PathTracer.new 1920 1080).reset_samples) testCam (2 ^ 32 - 1)).render_frame
        testCam).2.frame_count ≠ 2 ^ 32 := by
  have h0 : ((PathTracer.new 1920 1080).reset_samples).uniforms.frame_count < 2 ^ 32 := by
    show (0 : ℕ) < 2 ^ 32
    norm_num
  have h := runFrames_frame_count ((PathTracer.new 1920 1080).reset_samples) testCam h0
    (2 ^ 32 - 1)
  have h1 : ((PathTracer.new 1920 1080).reset_samples).uniforms.frame_count = 0 := rfl
  rw [PathTracer.render_frame_count, h, h1]
  norm_num

lemma exists_len4 {α : Type} {l : List α} (h : l.length = 4) :
    ∃ a b c d, l = [a, b, c, d] := by
  rcases l with _ | ⟨a, _ | ⟨b, _ | ⟨c, _ | ⟨d, _ | ⟨e, t⟩⟩⟩⟩⟩
  · simp at h
  · simp at h
  · simp at h
  · simp at h
  · exact ⟨a, b, c, d, rfl⟩
  · simp only [List.length_cons, List.length_nil] at h
    omega

/-- C5: the per-frame uniform payload written by `render_frame`
serializes to exactly 80 bytes: width at offset 0, height at 4,
frame_count at 8, the reserved u32 at 12, and the camera origin, u, v, w
each as three f32 components followed by one reserved f32 at offsets 16,
32, 48, 64; every reserved field serializes as four zero bytes (the
reserved u32 provided it still holds the 0 that `PathTracer::new` wrote,
which nothing ever overwrites). -/
theorem claim_C5 (enc : ℝ → List ℕ) (hlen : ∀ x : ℝ, (enc x).length = 4)
    (hzero : enc 0 = [0, 0, 0, 0]) (p : PathTracer) (c : Camera)
    (hp : p.uniforms.pad = 0) :
    ((written p c).bytes enc).length = 80 ∧
    ((written p c).bytes enc).take 4 = encodeU32 (written p c).width ∧
    (((written p c).bytes enc).drop 4).take 4 = encodeU32 (written p c).height ∧
    (((written p c).bytes enc).drop 8).take 4 = encodeU32 (written p c).frame_count ∧
    (((written p c).bytes enc).drop 12).take 4 = [0, 0, 0, 0] ∧
    (((written p c).bytes enc).drop 16).take 12 = encodeVec3 enc (written p c).camera.origin ∧
    (((written p c).bytes enc).drop 28).take 4 = [0, 0, 0, 0] ∧
    (((written p c).bytes enc).drop 32).take 12 = encodeVec3 enc (written p c).camera.u ∧
    (((written p c).bytes enc).drop 44).take 4 = [0, 0, 0, 0] ∧
    (((written p c).bytes enc).drop 48).take 12 = encodeVec3 enc (written p c).camera.v ∧
    (((written p c).bytes enc).drop 60).take 4 = [0, 0, 0, 0] ∧
    (((written p c).bytes enc).drop 64).take 12 = encodeVec3 enc (written p c).camera.w ∧
    (((written p c).bytes enc).drop 76).take 4 = [0, 0, 0, 0] := by
  have hpad : (written p c).pad = p.uniforms.pad := rfl
  have hp1 : (written p c).camera.pad1 = 0 := rfl
  have hp2 : (written p c).camera.pad2 = 0 := rfl
  have hp3 : (written p c).camera.pad3 = 0 := rfl
  have hp4 : (written p c).camera.pad4 = 0 := rfl
  obtain ⟨a1, a2, a3, a4, hA⟩ := exists_len4 (hlen ((written p c).camera.origin.x))
  obtain ⟨b1, b2, b3, b4, hB⟩ := exists_len4 (hlen ((written p c).camera.origin.y))
  obtain ⟨c1, c2, c3, c4, hC⟩ := exists_len4 (hlen ((written p c).camera.origin.z))
  obtain ⟨d1, d2, d3, d4, hD⟩ := exists_len4 (hlen ((written p c).camera.u.x))
  obtain ⟨e1, e2, e3, e4, hE⟩ := exists_len4 (hlen ((written p c).camera.u.y))
  obtain ⟨f1, f2, f3, f4, hF⟩ := exists_len4 (hlen ((written p c).camera.u.z))
  obtain ⟨g1, g2, g3, g4, hG⟩ := exists_len4 (hlen ((written p c).camera.v.x))
  obtain ⟨i1, i2, i3, i4, hI⟩ := exists_len4 (hlen ((written p c).camera.v.y))
  obtain ⟨j1, j2, j3, j4, hJ⟩ := exists_len4 (hlen ((written p c).camera.v.z))
  obtain ⟨k1, k2, k3, k4, hK⟩ := exists_len4 (hlen ((written p c).camera.w.x))
  obtain ⟨l1, l2, l3, l4, hL⟩ := exists_len4 (hlen ((written p c).camera.w.y))
  obtain ⟨m1, m2, m3, m4, hM⟩ := exists_len4 (hlen ((written p c).camera.w.z))
  simp only [Uniforms.bytes, CameraUniforms.bytes, encodeVec3, encodeU32]
  rw [hpad, hp, hp1, hp2, hp3, hp4]
  simp only [hzero, hA, hB, hC, hD, hE, hF, hG, hI, hJ, hK, hL, hM,
    List.cons_append, List.nil_append]
  refine ⟨rfl, rfl, rfl, rfl, rfl, rfl, rfl, rfl, rfl, rfl, rfl, rfl, rfl⟩

/-- Witness for C5 with the constant-zero scalar encoder and the renderer
made by `PathTracer::new(1920, 1080)`. -/
theorem claim_C5_witness :
    (∀ x : ℝ, ((fun _ : ℝ => ([0, 0, 0, 0] : List ℕ)) x).length = 4) ∧
    (fun _ : ℝ => ([0, 0, 0, 0] : List ℕ)) 0 = [0, 0, 0, 0] ∧
    (PathTracer.new 1920 1080).uniforms.pad = 0 ∧
    (((written (PathTracer.new 1920 1080) testCam).bytes
        (fun _ : ℝ => ([0, 0, 0, 0] : List ℕ))).length = 80 ∧
      ((written (PathTracer.new 1920 1080) testCam).bytes
          (fun _ : ℝ => ([0, 0, 0, 0] : List ℕ))).take 4 =
        encodeU32 (written (PathTracer.new 1920 1080) testCam).width ∧
      (((written (PathTracer.new 1920 1080) testCam).bytes
          (fun _ : ℝ => ([0, 0, 0, 0] : List ℕ))).drop 4).take 4 =
        encodeU32 (written (PathTracer.new 1920 1080) testCam).height ∧
      (((written (PathTracer.new 1920 1080) testCam).bytes
          (fun _ : ℝ => ([0, 0, 0, 0] : List ℕ))).drop 8).take 4 =
        encodeU32 (written (PathTracer.new 1920 1080) testCam).frame_count ∧
      (((written (PathTracer.new 1920 1080) testCam).bytes
          (fun _ : ℝ => ([0, 0, 0, 0] : List ℕ))).drop 12).take 4 = [0, 0, 0, 0] ∧
      (((written (PathTracer.new 1920 1080) testCam).bytes
          (fun _ : ℝ => ([0, 0, 0, 0] : List ℕ))).drop 16).take 12 =
        encodeVec3 (fun _ : ℝ => ([0, 0, 0, 0] : List ℕ))
          (written (PathTracer.new 1920 1080) testCam).camera.origin ∧
      (((written (PathTracer.new 1920 1080) testCam).bytes
          (fun _ : ℝ => ([0, 0, 0, 0] : List ℕ))).drop 28).take 4 = [0, 0, 0, 0] ∧
      (((written (PathTracer.new 1920 1080) testCam).bytes
          (fun _ : ℝ => ([0, 0, 0, 0] : List ℕ))).drop 32).take 12 =
        encodeVec3 (fun _ : ℝ => ([0, 0, 0, 0] : List ℕ))
          (written (PathTracer.new 1920 1080) testCam).camera.u ∧
      (((written (PathTracer.new 1920 1080) testCam).bytes
          (fun _ : ℝ => ([0, 0, 0, 0] : List ℕ))).drop 44).take 4 = [0, 0, 0, 0] ∧
      (((written (PathTracer.new 1920 1080) testCam).bytes
          (fun _ : ℝ => ([0, 0, 0, 0] : List ℕ))).drop 48).take 12 =
        encodeVec3 (fun _ : ℝ => ([0, 0, 0, 0] : List ℕ))
          (written (PathTracer.new 1920 1080) testCam).camera.v ∧
      (((written (PathTracer.new 1920 1080) testCam).bytes
          (fun _ : ℝ => ([0, 0, 0, 0] : List ℕ))).drop 60).take 4 = [0, 0, 0, 0] ∧
      (((written (PathTracer.new 1920 1080) testCam).bytes
          (fun _ : ℝ => ([0, 0, 0, 0] : List ℕ))).drop 64).take 12 =
        encodeVec3 (fun _ : ℝ => ([0, 0, 0, 0] : List ℕ))
          (written (PathTracer.new 1920 1080) testCam).camera.w ∧
      (((written (PathTracer.new 1920 1080) testCam).bytes
          (fun _ : ℝ => ([0, 0, 0, 0] : List ℕ))).drop 76).take 4 = [0, 0, 0, 0]) :=
  ⟨fun _ => rfl, rfl, rfl,
    claim_C5 (fun _ : ℝ => ([0, 0, 0, 0] : List ℕ)) (fun _ => rfl) rfl
      (PathTracer.new 1920 1080) testCam rfl⟩

end Raytracer
